import Mathlib

/-!
Verification of clawdbot-memory-infra against its specification.

The repository's JavaScript/Bash sources are shallowly embedded as pure
Lean functions. Strings manipulated by the programs are modelled as
`List Char` (`Str`); JavaScript string indices/lengths are code units,
which coincide with characters on the ASCII/BMP inputs used here. Absent
(`undefined`) string/number fields are modelled as `Option` or, where the
code only tests truthiness, by the falsy value (`""`, `0`).
-/

/-- Strings as character lists: the model of JS/Bash string values. -/
abbrev Str := List Char

/-- `hay.includes(needle)` of JavaScript: `needle` occurs as a contiguous
substring of `hay`. -/
def strIncludes (hay needle : Str) : Bool :=
  match hay with
  | [] => needle.isEmpty
  | _ :: rest => needle.isPrefixOf hay || strIncludes rest needle

/-- Decimal rendering of a natural number (the model of JS number → string
interpolation and of Bash arithmetic expansion). -/
def natStr (n : Nat) : Str :=
  Nat.toDigits 10 n

/-! ## Session rotation monitor (src/unnamed/part_000, session-rotation-monitor.js) -/

/-- A session descriptor as returned by the gateway `sessions.list` call.
The source also carries `sessionId` (used only in log output, not in any
decision). A missing `totalTokens` is modelled as `0` and a missing `key`
as `[]`: the code only ever tests their JS truthiness. -/
structure RSession where
  key : Str
  totalTokens : Nat
deriving DecidableEq

/-- A character matched by `.` in a JavaScript regex (without the `s` flag):
anything but a line terminator. -/
def dotOk (c : Char) : Bool :=
  !(c == '\n' || c == '\r' || c == '\u2028' || c == '\u2029')

/-- Matcher for the regex fragment `.*lit` against a string: either `lit`
matches at the current position, or one `.`-matchable character is consumed. -/
def starThenLit (lit : Str) : Str → Bool
  | [] => lit.isEmpty
  | c :: rest => lit.isPrefixOf (c :: rest) || (dotOk c && starThenLit lit rest)

/-- `test` of an anchored skip pattern `/^agent:.*lit/` against a session key
(`SKIP_PATTERNS`, part_000 lines 51-54): the key starts with `"agent:"` and
`lit` occurs later, reachable across `.`-matchable characters. -/
def testSkipPattern (lit : Str) (key : Str) : Bool :=
  "agent:".data.isPrefixOf key && starThenLit lit (key.drop 6)

/-- The `SKIP_PATTERNS` test: `/^agent:.*:cron:/` or `/^agent:.*:subagent:/`
matches the key. -/
def skipMatch (key : Str) : Bool :=
  testSkipPattern ":cron:".data key || testSkipPattern ":subagent:".data key

/-- The candidates filter of `main` (part_000 lines 92-100): skip when
`totalTokens` is falsy or below the threshold, when the key is falsy, or when
a skip pattern matches; otherwise the session is a rotation candidate. -/
def sessionIsCandidate (threshold : Nat) (s : RSession) : Bool :=
  if s.totalTokens == 0 || decide (s.totalTokens < threshold) then false
  else if s.key.isEmpty then false
  else if skipMatch s.key then false
  else true

/-- The rotate loop of `main` (part_000 lines 112-138), outside dry-run mode:
one `sessions.reset` command is issued per candidate, keyed by the candidate's
session key (issued regardless of whether the gateway call later succeeds). -/
def rotateCommands (threshold : Nat) (sessions : List RSession) : List Str :=
  (sessions.filter (fun s => sessionIsCandidate threshold s)).map (fun s => s.key)

/-- Transcription of the amended C1 candidate rule: nonempty key, nonzero
token count at or above the threshold, and no skip-pattern match. -/
def specRotationCandidate (threshold : Nat) (s : RSession) : Bool :=
  !s.key.isEmpty && s.totalTokens != 0 && decide (threshold ≤ s.totalTokens)
    && !skipMatch s.key

/-! ## Memory checkpointing (src/scripts/memory-checkpoint.js)

A transcript line is the parse result of one JSONL line: either malformed
(JSON.parse throws; the line is skipped) or a parsed event record. The JSON
values are embedded structurally; reading and parsing the raw bytes is owned
by the host platform. A missing `text` field of a content part and a missing
part list are modelled by the falsy values the code compares them against. -/

/-- One part of an array-valued `message.content`. A missing `text` is
modelled as `[]` (both are falsy for the `c.text` check). -/
structure CPart where
  type : String
  text : Str
deriving DecidableEq

/-- The `content` field of a message: a string, an array of parts, or any
other JSON value (which yields the empty extracted text). -/
inductive JContent where
  | str : Str → JContent
  | arr : List CPart → JContent
  | other : JContent
deriving DecidableEq

/-- The `message` object of a transcript event. -/
structure JMsg where
  role : String
  content : JContent
  model : Option String
deriving DecidableEq

/-- One parsed transcript event record. -/
structure JEntry where
  type : String
  message : Option JMsg
  timestamp : Option String
deriving DecidableEq

/-- One raw transcript line: malformed JSON or a parsed record. -/
inductive JLine where
  | malformed : JLine
  | entry : JEntry → JLine
deriving DecidableEq

/-- A normalized message record as pushed by `extractMessages`. -/
structure Message where
  role : String
  text : Str
  timestamp : Option String
  model : Option String
deriving DecidableEq

/-- `parts.join("\n")` over extracted text parts. -/
def joinNL : List Str → Str
  | [] => []
  | [x] => x
  | x :: y :: ys => x ++ '\n' :: joinNL (y :: ys)

/-- Text extraction from `msg.content` (memory-checkpoint.js lines 148-156):
a string content is taken as is; an array keeps the `text` of parts with
`type === "text"` and truthy `text`, joined by newlines; anything else gives
the empty string. -/
def contentText : JContent → Str
  | .str s => s
  | .arr parts =>
      joinNL ((parts.filter (fun c => c.type == "text" && !c.text.isEmpty)).map
        (fun c => c.text))
  | .other => []

/-- `extractMessages` body for one line (memory-checkpoint.js lines 138-172):
skip malformed lines, non-message records, roles outside user/assistant,
texts shorter than 5 characters, the control sentinels, and command-prefixed
texts; otherwise keep the message with its text capped at 1000 characters. -/
def extractLine : JLine → Option Message
  | .malformed => none
  | .entry e =>
    if e.type != "message" then none
    else match e.message with
      | none => none
      | some msg =>
        if msg.role != "user" && msg.role != "assistant" then none
        else
          let text := contentText msg.content
          if text.length < 5 then none
          else if text == "HEARTBEAT_OK".data || text == "NO_REPLY".data then none
          else if text.head? == some '/' then none
          else some ⟨msg.role, text.take 1000, e.timestamp, msg.model⟩

/-- `extractMessages` (memory-checkpoint.js lines 135-175). -/
def extractMessages (lines : List JLine) : List Message :=
  lines.filterMap extractLine

/-- `readLastLines` (memory-checkpoint.js lines 126-130) at the parsed-line
level: `lines.slice(-maxLines)`. -/
def readLastLines (lines : List JLine) (maxLines : Nat) : List JLine :=
  lines.drop (lines.length - maxLines)

/-- The lines of a day-log entry after its `### Checkpoint` header line and
the blank line that follows it (`buildDailyEntry` lines 273-293): the message
tally, the last request and last output when present, and a final blank. -/
def dailyEntryBody (messages : List Message) : List Str :=
  let userMsgs := messages.filter (fun m => m.role == "user")
  let assistantMsgs := messages.filter (fun m => m.role == "assistant")
  ["- ".data ++ natStr messages.length ++ " messages (".data
      ++ natStr userMsgs.length ++ " user, ".data
      ++ natStr assistantMsgs.length ++ " assistant)".data]
    ++ (match userMsgs.getLast? with
        | some m => ["- Last request: ".data ++ m.text.take 200]
        | none => [])
    ++ (match assistantMsgs.getLast? with
        | some m => ["- Last output: ".data ++ m.text.take 200]
        | none => [])
    ++ [[]]

/-- `buildDailyEntry` (memory-checkpoint.js lines 260-295). `timeStr` is the
run's clock reading rendered as HH:MM; `agentId` is accepted, as in the
source, but unused by the body. -/
def buildDailyEntry (agentId : Str) (messages : List Message) (timeStr : Str) : Str :=
  let _ := agentId
  joinNL (("### Checkpoint ".data ++ timeStr ++ " (auto)".data)
    :: [] :: dailyEntryBody messages)

/-- The day-log deduplication marker (memory-checkpoint.js line 362):
`"Checkpoint " + timeStr.slice(0, 4)`. -/
def checkpointMarker (timeStr : Str) : Str :=
  "Checkpoint ".data ++ timeStr.take 4

/-- The header written when the day-log file does not exist yet
(memory-checkpoint.js line 358): `"# agentId — dateStr\n\n"`. -/
def dailyHeader (agentId dateStr : Str) : Str :=
  "# ".data ++ agentId ++ " — ".data ++ dateStr ++ "\n\n".data

/-- The Current-State Snapshot artifact. `buildActiveContext`
(memory-checkpoint.js lines 180-255) renders a markdown document that is a
function of exactly these inputs (agent id, extracted messages, session path,
clock reading); no claim constrains the rendered text, so the model stores
the data the snapshot is rendered from. -/
structure ActiveSnap where
  agentId : Str
  messages : List Message
  sessionPath : Str
  time : Str
deriving DecidableEq

/-- The per-agent slice of the filesystem the checkpoint run writes:
the `ACTIVE_CONTEXT.md` snapshot and the current date's day-log file
(`memory/YYYY-MM-DD.md`), each `none` when absent. -/
structure FState where
  active : Option ActiveSnap
  daily : Option Str
deriving DecidableEq

/-- Injected outcomes of the fallible write operations of one checkpoint run:
`mkdirFails` (memory-checkpoint.js lines 321-326), `writeActiveFails` (lines
344-349), `dailyIOFails` (lines 352-371, the whole read-dedup-append block).
Each such failure is caught by the code where cited. -/
structure WEnv where
  mkdirFails : Bool
  writeActiveFails : Bool
  dailyIOFails : Bool
deriving DecidableEq

/-- The snapshot write block (memory-checkpoint.js lines 344-349): overwrite
`ACTIVE_CONTEXT.md`; a write failure is caught and leaves the state as it was. -/
def activeStep (env : WEnv) (snap : ActiveSnap) (st : FState) : FState :=
  if env.writeActiveFails then st else { st with active := some snap }

/-- The day-log block (memory-checkpoint.js lines 352-371) acting on the
day-log file's content: read the file (absent → synthesize the day header),
skip the append when the dedup marker is already contained, else append the
entry; an IO failure anywhere in the block is caught and leaves the file as
it was. -/
def dailyFileStep (env : WEnv) (agentId dateStr timeStr dailyEntry : Str)
    (daily : Option Str) : Option Str :=
  if env.dailyIOFails then daily
  else
    let existing := match daily with
      | some c => c
      | none => dailyHeader agentId dateStr
    if strIncludes existing (checkpointMarker timeStr) then daily
    else some (existing ++ dailyEntry)

/-- `checkpointAgent` (memory-checkpoint.js lines 300-374) outside dry-run
mode, given the session discovery result: `session` is `none` when
`findActiveSession` returned null (no session file, stale, or under the
minimum byte size), else the path of the session file and its parsed lines.
Returns the updated file state and the function's return value.
`dateStr`/`timeStr` are the run's clock readings. -/
def checkpointAgent (env : WEnv) (agentId : Str) (session : Option (Str × List JLine))
    (dateStr timeStr : Str) (st : FState) : FState × Bool :=
  match session with
  | none => (st, false)
  | some (sessionPath, rawLines) =>
    let lines := readLastLines rawLines 60
    let messages := extractMessages lines
    if messages.length < 3 then (st, false)
    else if env.mkdirFails then (st, false)
    else
      let dailyEntry := buildDailyEntry agentId messages timeStr
      let st1 := activeStep env ⟨agentId, messages, sessionPath, timeStr⟩ st
      let st2 := { st1 with
        daily := dailyFileStep env agentId dateStr timeStr dailyEntry st1.daily }
      (st2, true)

/-- One agent's work item in a checkpoint batch run. `readFails` injects the
one uncaught throw of `checkpointAgent`: `readLastLines`/`fs.readFile` on the
discovered session file (memory-checkpoint.js line 309), which happens before
any write. -/
structure BatchItem where
  env : WEnv
  readFails : Bool
  agentId : Str
  session : Option (Str × List JLine)
  dateStr : Str
  timeStr : Str
  st : FState
deriving DecidableEq

/-- A run of `checkpointAgent` for one item: `Except.error` models the thrown
error that `main`'s per-agent catch receives (memory-checkpoint.js lines
398-403); nothing was written when it is thrown. -/
def checkpointAgentRun (it : BatchItem) : Except Unit (FState × Bool) :=
  match it.session with
  | none => .ok (it.st, false)
  | some s =>
    if it.readFails then .error ()
    else .ok (checkpointAgent it.env it.agentId (some s) it.dateStr it.timeStr it.st)

/-- The `main` loop of memory-checkpoint.js (lines 396-406): process agents in
order, threading the `checkpointed` tally; a thrown per-agent error is caught,
leaving that agent's files as they were and the tally unchanged. Returns the
per-agent final file states and the final tally. -/
def runBatch : List BatchItem → Nat → List FState × Nat
  | [], n => ([], n)
  | it :: rest, n =>
    match checkpointAgentRun it with
    | .error _ =>
      let r := runBatch rest n
      (it.st :: r.1, r.2)
    | .ok (st2, b) =>
      let r := runBatch rest (if b then n + 1 else n)
      (st2 :: r.1, r.2)

/-- The final file state one item alone produces (amended C9 transcription). -/
def itemFinalState (it : BatchItem) : FState :=
  match checkpointAgentRun it with
  | .error _ => it.st
  | .ok r => r.1

/-- Whether one item alone counts as checkpointed (amended C9 transcription):
`checkpointAgent` returned `true` and did not throw. -/
def itemSuccess (it : BatchItem) : Bool :=
  match checkpointAgentRun it with
  | .error _ => false
  | .ok r => r.2

/-! ## Memory index injection hook (src/unnamed/part_004, memory-index-inject) -/

/-- The `memory/` directory of a workspace: file names with their contents.
File sizes (`fs.stat().size`) are content lengths; the model inputs are
ASCII, where bytes and characters coincide. -/
structure MemoryDir where
  files : List (Str × Str)
deriving DecidableEq

/-- `fs.readFile` of a name in the memory directory (`none` = ENOENT). -/
def findFile (d : MemoryDir) (name : Str) : Option Str :=
  (d.files.find? (fun f => f.1 == name)).map (fun f => f.2)

/-- `MEMORY_THRESHOLD_BYTES = 50 * 1024` (part_004 line 318). -/
def MEMORY_THRESHOLD_BYTES : Nat := 50 * 1024

/-- The aggregate size loop (part_004 lines 345-353): sum of sizes of the
`.md` files other than `INDEX.md` itself. -/
def totalMemoryBytes (d : MemoryDir) : Nat :=
  ((d.files.filter (fun f => ".md".data.isSuffixOf f.1 && f.1 != "INDEX.md".data)).map
    (fun f => f.2.length)).sum

/-- `Math.round(num / den)` for natural `num` and a power-of-two `den` (both
divisions involved are exact in binary floating point at these magnitudes,
and JS rounds half up). -/
def jsRound (num den : Nat) : Nat :=
  (num + den / 2) / den

/-- The progressive-disclosure instruction template (part_004 lines 384-405)
with its two interpolated quantities rendered. -/
def disclosureInstruction (totalBytes : Nat) : Str :=
  "## Progressive Memory Disclosure\n\nYour memory pool contains ".data
    ++ natStr (jsRound totalBytes 1024)
    ++ "KB (~".data ++ natStr (jsRound totalBytes 4)
    ++ " tokens) across multiple files.\nTo avoid wasting context on irrelevant memory, you've been given a compact INDEX instead of the full contents.\n\n**How to use:**\n1. ACTIVE_CONTEXT.md is loaded below — it contains your current working state\n2. The INDEX shows all available memory files with categories, sizes, and observation markers\n3. Use `memory_search` to find relevant files by topic\n4. Use `memory_get` to load specific sections of specific files\n5. **Don't load everything** — only pull what's relevant to the current task\n\n**Observation markers in memory files:**\n- 🔴 [GOTCHA] — Traps, footguns, unexpected behavior\n- 🟤 [DECISION] — Architectural/strategic choices\n- ⚖️ [TRADEOFF] — Evaluated options with pros/cons\n- 🟡 [SOLUTION] — Problem + how it was solved\n- 🔵 [PATTERN] — Reusable approach or workflow\n- 🟢 [FACT] — Verified reference data\n- 🟣 [PREFERENCE] — User preference\n- ⚪ [TODO] — Action items\n".data

/-- One named content block pushed onto `context.bootstrapFiles`. -/
structure BootstrapFile where
  name : String
  content : Str
deriving DecidableEq

/-- The `memoryIndexInject` hook body (part_004 lines 320-425), after its
event guards (`agent:bootstrap` with a workspace directory and a bootstrap
file array): returns the memory directory (which the hook only reads) and
the updated injection sink. Skips when `INDEX.md` is absent or the aggregate
size is below the threshold; otherwise pushes the instruction joined with the
index content as one block, then the `ACTIVE_CONTEXT.md` content as a second
block when that read succeeded with truthy (non-empty) content. -/
def memoryIndexInject (d : MemoryDir) (sink : List BootstrapFile) :
    MemoryDir × List BootstrapFile :=
  match findFile d "INDEX.md".data with
  | none => (d, sink)
  | some indexContent =>
    let totalBytes := totalMemoryBytes d
    if totalBytes < MEMORY_THRESHOLD_BYTES then (d, sink)
    else
      let activeContextContent := findFile d "ACTIVE_CONTEXT.md".data
      let combined := disclosureInstruction totalBytes ++ "\n---\n\n".data ++ indexContent
      let sink1 := sink ++ [⟨"MEMORY_INDEX.md", combined⟩]
      match activeContextContent with
      | some a => if a.isEmpty then (d, sink1) else (d, sink1 ++ [⟨"ACTIVE_CONTEXT.md", a⟩])
      | none => (d, sink1)

/-! ## Workspace resolution (memory-checkpoint.js lines 55-68 and
src/unnamed/part_004 lines 31-49) -/

/-- One entry of `cfg.agents.list`; absent fields are `none`. -/
structure AgentEntry where
  id : Option Str
  name : Option Str
  workspace : Option Str
deriving DecidableEq

/-- The slice of the configuration document both resolvers read:
`cfg.agents.list` and `cfg.agents.defaults.workspace`. -/
structure AgentsConfig where
  list : List AgentEntry
  defaultWorkspace : Option Str
deriving DecidableEq

/-- JS truthiness of an optional string: `none` exactly when the value is
absent or empty. -/
def jsTruthy (o : Option Str) : Option Str :=
  match o with
  | some s => if s.isEmpty then none else some s
  | none => none

/-- `workspace.replace(/^~/, os.homedir())`. -/
def expandTilde (home w : Str) : Str :=
  match w with
  | '~' :: rest => home ++ rest
  | _ => w

/-- `path.join(a, b)` for the separator-free segments used here. -/
def pathJoin (a b : Str) : Str :=
  a ++ '/' :: b

/-- `c.toLowerCase()` over the model's character range. -/
def lowerStr (s : Str) : Str :=
  s.map Char.toLower

/-- A character removed by `String.prototype.trim` (the whitespace actually
reachable in the model's inputs). -/
def jsWs (c : Char) : Bool :=
  c == ' ' || c == '\t' || c == '\n' || c == '\r' || c == '\x0b' || c == '\x0c'

/-- `s.trim()`. -/
def trimStr (s : Str) : Str :=
  ((s.dropWhile jsWs).reverse.dropWhile jsWs).reverse

/-- `agents.find((a) => a.id === agentId || a.name?.toLowerCase() === agentId)`,
shared verbatim by both resolvers. -/
def findAgentEntry (l : List AgentEntry) (agentId : Str) : Option AgentEntry :=
  l.find? (fun a => a.id == some agentId || a.name.map lowerStr == some agentId)

/-- `resolveWorkspace` (memory-checkpoint.js lines 55-68): per-agent truthy
workspace, else for the literal identifier `"main"` the truthy configured
default, else `<home>/clawd` for `"main"` and `<home>/clawd-<agentId>`
otherwise. -/
def resolveWorkspace (home : Str) (cfg : AgentsConfig) (agentId : Str) : Str :=
  match jsTruthy ((findAgentEntry cfg.list agentId).bind (fun a => a.workspace)) with
  | some w => expandTilde home w
  | none =>
    if agentId == "main".data then
      match jsTruthy cfg.defaultWorkspace with
      | some d => expandTilde home d
      | none => pathJoin home "clawd".data
    else pathJoin home ("clawd-".data ++ agentId)

/-- The identifier normalization of `resolveAgentWorkspaceDir` (part_004
line 32): `(agentId || "main").trim().toLowerCase()`. -/
def normalizeAgentId (agentId : Str) : Str :=
  lowerStr (trimStr (if agentId.isEmpty then "main".data else agentId))

/-- `resolveAgentWorkspaceDir` (part_004 lines 31-49): like
`resolveWorkspace`, but on the trimmed, lowercased identifier. -/
def resolveAgentWorkspaceDir (home : Str) (cfg : AgentsConfig) (agentId : Str) : Str :=
  let id := normalizeAgentId agentId
  match jsTruthy ((findAgentEntry cfg.list id).bind (fun a => a.workspace)) with
  | some w => expandTilde home w
  | none =>
    if id == "main".data then
      match jsTruthy cfg.defaultWorkspace with
      | some fallback => expandTilde home fallback
      | none => pathJoin home "clawd".data
    else pathJoin home ("clawd-".data ++ id)

/-- Whether the agent lookup yields a truthy per-agent workspace. -/
def hasWorkspaceEntry (cfg : AgentsConfig) (agentId : Str) : Bool :=
  (jsTruthy ((findAgentEntry cfg.list agentId).bind (fun a => a.workspace))).isSome

/-! ## Index builder (src/README.md part 2, generate-memory-index.sh) -/

/-- One memory document as the index builder sees it: file name, content
lines (each newline-terminated on disk), and the rendered last-modified
date. -/
structure MemDoc where
  fname : Str
  lines : List Str
  modified : Str
deriving DecidableEq

/-- `wc -c` of a document: every line newline-terminated (ASCII inputs, so
bytes = characters). -/
def docSize (d : MemDoc) : Nat :=
  (d.lines.map (fun l => l.length + 1)).sum

/-- `grep -c 'marker'`: the number of lines containing the marker. -/
def countMarker (marker : Str) (d : MemDoc) : Nat :=
  d.lines.countP (fun l => strIncludes l marker)

/-- The eight per-document observation counts of `count_observations`
(README part 2, lines 219-247). -/
structure ObsCounts where
  decisions : Nat
  gotchas : Nat
  solutions : Nat
  patterns : Nat
  tradeoffs : Nat
  facts : Nat
  prefs : Nat
  todos : Nat
deriving DecidableEq

/-- `count_observations` per-document counts. -/
def countObservations (d : MemDoc) : ObsCounts :=
  ⟨countMarker "[DECISION]".data d, countMarker "[GOTCHA]".data d,
   countMarker "[SOLUTION]".data d, countMarker "[PATTERN]".data d,
   countMarker "[TRADEOFF]".data d, countMarker "[FACT]".data d,
   countMarker "[PREFERENCE]".data d, countMarker "[TODO]".data d⟩

/-- `OBS_STR` assembly (README part 2, lines 236-246). -/
def obsStr (c : ObsCounts) : Str :=
  let s :=
    (if 0 < c.decisions then natStr c.decisions ++ "🟤 ".data else [])
    ++ (if 0 < c.gotchas then natStr c.gotchas ++ "🔴 ".data else [])
    ++ (if 0 < c.solutions then natStr c.solutions ++ "🟡 ".data else [])
    ++ (if 0 < c.patterns then natStr c.patterns ++ "🔵 ".data else [])
    ++ (if 0 < c.tradeoffs then natStr c.tradeoffs ++ "⚖️ ".data else [])
    ++ (if 0 < c.facts then natStr c.facts ++ "🟢 ".data else [])
    ++ (if 0 < c.prefs then natStr c.prefs ++ "🟣 ".data else [])
    ++ (if 0 < c.todos then natStr c.todos ++ "⚪ ".data else [])
  if s.isEmpty then "—".data else s

/-- `estimate_tokens`: bytes / 4. -/
def estimateTokens (bytes : Nat) : Nat :=
  bytes / 4

/-- `format_size`. -/
def formatSize (bytes : Nat) : Str :=
  if 1048576 ≤ bytes then natStr (bytes / 1048576) ++ "MB".data
  else if 1024 ≤ bytes then natStr (bytes / 1024) ++ "KB".data
  else natStr bytes ++ "B".data

/-- `get_title`: first `#`-heading line with leading hashes and spaces
stripped, truncated to 60 characters; else the basename without `.md`. -/
def getTitle (d : MemDoc) : Str :=
  match d.lines.find? (fun l => l.head? == some '#') with
  | some h => ((h.dropWhile (fun c => c == '#')).dropWhile (fun c => c == ' ')).take 60
  | none => if ".md".data.isSuffixOf d.fname then d.fname.take (d.fname.length - 3)
            else d.fname

/-- One table row (README part 2, line 280). -/
def rowLine (d : MemDoc) : Str :=
  "| ".data ++ d.fname ++ " | ".data ++ getTitle d ++ " | ".data
    ++ formatSize (docSize d) ++ " | ~".data ++ natStr (estimateTokens (docSize d))
    ++ " | ".data ++ obsStr (countObservations d) ++ " | ".data ++ d.modified
    ++ " |".data

/-- The running totals the script accumulates (`TOTAL_*`, README part 2,
lines 190-196 and 230-234): only size, file count, and five of the eight
marker types. -/
structure IndexTotals where
  size : Nat
  files : Nat
  decisions : Nat
  gotchas : Nat
  solutions : Nat
  patterns : Nat
  todos : Nat
deriving DecidableEq

/-- The per-file totals update of the scan loop (README part 2, lines
270-272 and 230-234). -/
def addDocTotals (t : IndexTotals) (d : MemDoc) : IndexTotals :=
  { size := t.size + docSize d
    files := t.files + 1
    decisions := t.decisions + countMarker "[DECISION]".data d
    gotchas := t.gotchas + countMarker "[GOTCHA]".data d
    solutions := t.solutions + countMarker "[SOLUTION]".data d
    patterns := t.patterns + countMarker "[PATTERN]".data d
    todos := t.todos + countMarker "[TODO]".data d }

/-- The documents the scan loop visits: every file except `INDEX.md` itself. -/
def scanned (files : List MemDoc) : List MemDoc :=
  files.filter (fun d => !(d.fname == "INDEX.md".data))

/-- The corpus totals after the scan loop. -/
def buildTotals (files : List MemDoc) : IndexTotals :=
  (scanned files).foldl addDocTotals ⟨0, 0, 0, 0, 0, 0, 0⟩

/-- The totals-bearing head of the generated INDEX.md (README part 2, lines
316-319); the rest of the heredoc is fixed text independent of the corpus. -/
def indexHeader (generated : Str) (t : IndexTotals) : Str :=
  "# Memory Index\n> **Generated**: ".data ++ generated
    ++ " | **Files**: ".data ++ natStr t.files
    ++ " | **Size**: ".data ++ formatSize t.size
    ++ " | **~Tokens**: ".data ++ natStr (estimateTokens t.size)
    ++ "\n> **Observations**: ".data ++ natStr t.decisions
    ++ "🟤 decisions | ".data ++ natStr t.gotchas
    ++ "🔴 gotchas | ".data ++ natStr t.solutions
    ++ "🟡 solutions | ".data ++ natStr t.patterns
    ++ "🔵 patterns | ".data ++ natStr t.todos
    ++ "⚪ todos\n".data

/-- The document categories (README part 2, lines 283-308), in rule order. -/
inductive MemCategory where
  | core | uqual | research | sessions | config | plans | project | other
deriving DecidableEq

/-- `20[0-9][0-9]-[0-9][0-9]-[0-9][0-9]*` as a glob over the file name. -/
def dateLikeName : Str → Bool
  | '2' :: '0' :: y1 :: y2 :: '-' :: m1 :: m2 :: '-' :: d1 :: d2 :: _ =>
      y1.isDigit && y2.isDigit && m1.isDigit && m2.isDigit && d1.isDigit && d2.isDigit
  | _ => false

/-- The `case "$fname" in` categorization, first match wins. -/
def categorize (fname : Str) : MemCategory :=
  if fname == "ACTIVE_CONTEXT.md".data || fname == "overnight-run-state.md".data
      || fname == "slack-mission-control.md".data then .core
  else if "uqual-".data.isPrefixOf fname then .uqual
  else if "research-".data.isPrefixOf fname then .research
  else if dateLikeName fname then .sessions
  else if "-config.md".data.isSuffixOf fname || "credentials-".data.isPrefixOf fname then
    .config
  else if "plan-".data.isPrefixOf fname || "procedure-".data.isPrefixOf fname then .plans
  else if strIncludes fname "-setup".data || strIncludes fname "-checklist".data then
    .project
  else .other

/-- The rows collected for one category, in scan order. -/
def categoryRows (files : List MemDoc) (cat : MemCategory) : List Str :=
  ((scanned files).filter (fun d => categorize d.fname == cat)).map rowLine

/-- The suffix of a row starting after its n-th `|` separator. -/
def dropThroughBar : Str → Str
  | [] => []
  | c :: rest => if c == '|' then rest else dropThroughBar rest

/-- The `sort` key of `-t'|' -k6`: from the start of field 6 to the end of
the line. The leading `|` of a row makes field 1 empty, so field 6 is the
Observations cell, not the Modified cell. -/
def sortKeyK6 (line : Str) : Str :=
  dropThroughBar (dropThroughBar (dropThroughBar (dropThroughBar (dropThroughBar line))))

/-- Strict lexicographic order on strings by character code (the byte order
`sort` uses under the C locale; the rows compared here agree in any locale). -/
def lexLt : Str → Str → Bool
  | [], [] => false
  | [], _ :: _ => true
  | _ :: _, [] => false
  | a :: as, b :: bs =>
      if a.val < b.val then true else if b.val < a.val then false else lexLt as bs

/-- The comparator realized by `sort -t'|' -k6 -r`: descending on the field-6
key, with the whole line as the (also reversed) last-resort key. -/
def rowPrecedes (a b : Str) : Bool :=
  if lexLt (sortKeyK6 a) (sortKeyK6 b) then false
  else if lexLt (sortKeyK6 b) (sortKeyK6 a) then true
  else !(lexLt a b)

/-- Insertion into a `sort -t'|' -k6 -r`-ordered list. -/
def insertRow (x : Str) : List Str → List Str
  | [] => [x]
  | y :: ys => if rowPrecedes x y then x :: y :: ys else y :: insertRow x ys

/-- `sort -t'|' -k6 -r` over a category's rows (`write_category`, README
part 2, line 345). -/
def sortRows (rows : List Str) : List Str :=
  rows.foldr insertRow []

/-! ## Concrete inputs used by counterexamples and witnesses -/

/-- A parsed user message line with a usable text. -/
def lineUser (t : Str) : JLine :=
  .entry ⟨"message", some ⟨"user", .str t, none⟩, some "2026-02-03T10:00:00Z"⟩

/-- A parsed assistant message line with a usable array-content text. -/
def lineAssistant (t : Str) : JLine :=
  .entry ⟨"message", some ⟨"assistant",
    .arr [⟨"text", t⟩, ⟨"thinking", "hidden reasoning".data⟩], some "claude"⟩, none⟩

/-- A transcript with exactly two usable messages among chaff. -/
def twoMsgLines : List JLine :=
  [JLine.malformed,
   lineUser "please fix the bug".data,
   .entry ⟨"message", some ⟨"user", .str "/new".data, none⟩, none⟩,
   .entry ⟨"message", some ⟨"user", .str "HEARTBEAT_OK".data, none⟩, none⟩,
   .entry ⟨"system", none, none⟩,
   lineAssistant "done, fixed in utils.js".data]

/-- A transcript with three usable messages. -/
def threeMsgLines : List JLine :=
  [lineUser "please fix the bug".data,
   lineAssistant "done, fixed in utils.js".data,
   lineUser "now add a test".data]

/-- A batch item whose snapshot and day-log writes both fail after a
successful extraction. -/
def itemWriteFail : BatchItem :=
  { env := ⟨false, true, true⟩, readFails := false, agentId := "main".data,
    session := some ("s1.jsonl".data, threeMsgLines),
    dateStr := "2026-02-03".data, timeStr := "10:00".data,
    st := ⟨none, none⟩ }

/-- A batch item whose transcript read throws. -/
def itemThrow : BatchItem :=
  { env := ⟨false, false, false⟩, readFails := true, agentId := "main".data,
    session := some ("s1.jsonl".data, threeMsgLines),
    dateStr := "2026-02-03".data, timeStr := "10:00".data,
    st := ⟨none, none⟩ }

/-- A memory directory whose aggregate size is exactly the 51200-byte
threshold, with an index present. -/
def dirAtThreshold : MemoryDir :=
  ⟨[("INDEX.md".data, "# Memory Index".data),
    ("big.md".data, List.replicate 51200 'a')]⟩

/-- A memory directory above the threshold whose `ACTIVE_CONTEXT.md` exists
but is empty. -/
def dirEmptySnapshot : MemoryDir :=
  ⟨[("INDEX.md".data, "# Memory Index".data),
    ("ACTIVE_CONTEXT.md".data, []),
    ("big.md".data, List.replicate 51200 'a')]⟩

/-- A memory directory above the threshold with a non-empty snapshot. -/
def dirWithSnapshot : MemoryDir :=
  ⟨[("INDEX.md".data, "# Memory Index".data),
    ("ACTIVE_CONTEXT.md".data, "# Active Context for main".data),
    ("big.md".data, List.replicate 51200 'a')]⟩

/-- A configuration with no per-agent entries and a configured default
workspace. -/
def cfgDefaultOnly : AgentsConfig :=
  ⟨[], some "/ws".data⟩

/-- A one-line document whose line carries a `[FACT]` marker. -/
def docWithFact : MemDoc :=
  ⟨"notes-a.md".data, ["see [FACT] one".data], "2026-01-01".data⟩

/-- A one-line document of the same size with no marker at all. -/
def docNoFact : MemDoc :=
  ⟨"notes-a.md".data, ["see note x one".data], "2026-01-01".data⟩

/-- A session-log document whose only marker is a `[DECISION]`, modified
early. -/
def docBrownOld : MemDoc :=
  ⟨"2026-01-05-notes.md".data, ["x [DECISION] chose plan A".data], "2026-01-01".data⟩

/-- A session-log document whose only marker is a `[GOTCHA]`, modified
later. -/
def docRedNew : MemDoc :=
  ⟨"2026-01-06-notes.md".data, ["x [GOTCHA] trap discovered".data], "2026-02-02".data⟩

/-! ## Theorems -/

theorem isPrefixOf_append_self (a b : Str) : a.isPrefixOf (a ++ b) = true := by
  induction a with
  | nil => simp [List.isPrefixOf]
  | cons c cs ih => simp [List.isPrefixOf, ih]

theorem strIncludes_append_mid (a n b : Str) :
    strIncludes (a ++ (n ++ b)) n = true := by
  induction a with
  | nil =>
    cases n with
    | nil =>
      induction b with
      | nil => rfl
      | cons c cs ih => simp only [strIncludes, List.nil_append] at ih ⊢; simp [ih]
    | cons c cs =>
      simp only [List.nil_append, List.cons_append, strIncludes]
      have h := isPrefixOf_append_self (c :: cs) b
      simp only [List.cons_append] at h
      simp [h]
  | cons c cs ih =>
    simp only [List.cons_append, strIncludes]
    simp [ih]

theorem sessionIsCandidate_eq_spec (threshold : Nat) (s : RSession) :
    sessionIsCandidate threshold s = specRotationCandidate threshold s := by
  unfold sessionIsCandidate specRotationCandidate
  by_cases h0 : s.totalTokens = 0
  · simp [h0]
  · by_cases hlt : s.totalTokens < threshold
    · have : ¬ threshold ≤ s.totalTokens := by omega
      simp [h0, hlt, this]
    · have hge : threshold ≤ s.totalTokens := by omega
      by_cases hk : s.key.isEmpty
      · simp [h0, hlt, hk, hge]
      · by_cases hs : skipMatch s.key
        · simp [h0, hlt, hk, hs, hge]
        · simp [h0, hlt, hk, hs, hge]

/-- C1: the claim as stated is false on the code: a session whose token count
equals the threshold exactly IS a candidate (the filter skips only counts
strictly below the threshold), so a rotate command is issued although the
count does not exceed the threshold. -/
theorem C1_counterexample :
    rotateCommands 150000 [⟨"agent:main:slack:dm".data, 150000⟩]
        = ["agent:main:slack:dm".data]
    ∧ ¬ ((150000 : Nat) > 150000) := by
  exact ⟨by decide, by omega⟩

/-- C1 (amended): the Rotation Controller issues a rotate command for a
session exactly when its key is nonempty, its token count is nonzero and at
or above the threshold, and its key matches no exclusion pattern; in
particular one session at 160,000 tokens with threshold 150,000 and no
exclusion match yields exactly one rotate command, for that session's key. -/
theorem C1_rotation_commands :
    (∀ (threshold : Nat) (sessions : List RSession),
        rotateCommands threshold sessions
          = (sessions.filter (fun s => specRotationCandidate threshold s)).map
              (fun s => s.key))
    ∧ rotateCommands 150000 [⟨"agent:ops:slack:ch".data, 160000⟩]
        = ["agent:ops:slack:ch".data] := by
  constructor
  · intro threshold sessions
    unfold rotateCommands
    congr 1
    induction sessions with
    | nil => rfl
    | cons s rest ih =>
      simp only [List.filter_cons, sessionIsCandidate_eq_spec, ih]
  · decide

/-- C2: a session whose key matches an exclusion pattern is never issued a
rotate command, whatever its token count and whatever else the list holds. -/
theorem C2_excluded_never_rotated (threshold : Nat) (sessions : List RSession)
    (key : Str) (h : skipMatch key = true) :
    key ∉ rotateCommands threshold sessions := by
  intro hmem
  unfold rotateCommands at hmem
  rcases List.mem_map.mp hmem with ⟨s, hs, hkey⟩
  have hf := (List.mem_filter.mp hs).2
  rw [sessionIsCandidate_eq_spec] at hf
  simp only [specRotationCandidate, Bool.and_eq_true, Bool.not_eq_true'] at hf
  rw [hkey] at hf
  rw [h] at hf
  exact absurd hf.2 (by simp)

/-- C2 witness: a cron session at 999,999 tokens matches a skip pattern and
receives no rotate command. -/
theorem C2_excluded_never_rotated_witness :
    skipMatch "agent:main:cron:daily".data = true
    ∧ "agent:main:cron:daily".data
        ∉ rotateCommands 150000 [⟨"agent:main:cron:daily".data, 999999⟩] :=
  ⟨by decide, C2_excluded_never_rotated 150000 _ _ (by decide)⟩

theorem joinNL_cons_cons (x y : Str) (ys : List Str) :
    joinNL (x :: y :: ys) = x ++ '\n' :: joinNL (y :: ys) :=
  rfl

theorem buildDailyEntry_shape (agentId : Str) (messages : List Message) (timeStr : Str) :
    buildDailyEntry agentId messages timeStr
      = "### Checkpoint ".data
          ++ (timeStr ++ (" (auto)".data ++ '\n' :: joinNL ([] :: dailyEntryBody messages))) := by
  unfold buildDailyEntry
  rw [joinNL_cons_cons]
  simp [List.append_assoc]

theorem marker_prefix_line (t rest : Str) :
    "### Checkpoint ".data ++ (t ++ rest)
      = "### ".data ++ (checkpointMarker t ++ (t.drop 4 ++ rest)) := by
  unfold checkpointMarker
  have h : ("### Checkpoint ".data : Str) = "### ".data ++ "Checkpoint ".data := rfl
  rw [h]
  simp only [List.append_assoc]
  rw [← List.append_assoc (t.take 4) (t.drop 4) rest, List.take_append_drop]

theorem dailyEntry_contains_marker (existing agentId : Str) (messages : List Message)
    (timeStr : Str) :
    strIncludes (existing ++ buildDailyEntry agentId messages timeStr)
      (checkpointMarker timeStr) = true := by
  rw [buildDailyEntry_shape, marker_prefix_line, ← List.append_assoc]
  exact strIncludes_append_mid (existing ++ "### ".data) _ _

theorem activeStep_daily (env : WEnv) (snap : ActiveSnap) (st : FState) :
    (activeStep env snap st).daily = st.daily := by
  unfold activeStep
  split <;> rfl

theorem dailyFileStep_idem (env : WEnv) (agentId dateStr timeStr : Str)
    (messages : List Message) (x : Option Str) :
    dailyFileStep env agentId dateStr timeStr (buildDailyEntry agentId messages timeStr)
        (dailyFileStep env agentId dateStr timeStr
          (buildDailyEntry agentId messages timeStr) x)
      = dailyFileStep env agentId dateStr timeStr
          (buildDailyEntry agentId messages timeStr) x := by
  by_cases hio : env.dailyIOFails = true
  · simp [dailyFileStep, hio]
  · cases x with
    | none =>
      by_cases hc : strIncludes (dailyHeader agentId dateStr) (checkpointMarker timeStr) = true
      · simp [dailyFileStep, hio, hc]
      · simp [dailyFileStep, hio, hc, dailyEntry_contains_marker]
    | some c =>
      by_cases hc : strIncludes c (checkpointMarker timeStr) = true
      · simp [dailyFileStep, hio, hc]
      · simp [dailyFileStep, hio, hc, dailyEntry_contains_marker]

/-- C3: when fewer than 3 usable messages survive filtering of the transcript
tail, `checkpointAgent` skips the agent, writes neither the snapshot nor the
day-log file, and returns false. -/
theorem C3_skip_below_min (env : WEnv) (agentId sessionPath : Str) (rawLines : List JLine)
    (dateStr timeStr : Str) (st : FState)
    (h : (extractMessages (readLastLines rawLines 60)).length < 3) :
    checkpointAgent env agentId (some (sessionPath, rawLines)) dateStr timeStr st
      = (st, false) := by
  simp [checkpointAgent, h]

/-- C3 witness: a transcript with exactly two usable messages among chaff is
skipped with both files untouched. -/
theorem C3_skip_below_min_witness :
    (extractMessages (readLastLines twoMsgLines 60)).length < 3
    ∧ checkpointAgent ⟨false, false, false⟩ "main".data
        (some ("s1.jsonl".data, twoMsgLines)) "2026-02-03".data "10:00".data
        ⟨none, none⟩
        = (⟨none, none⟩, false) :=
  ⟨by decide, C3_skip_below_min _ _ _ _ _ _ _ (by decide)⟩

/-- C4: running `checkpointAgent` twice in immediate succession (same clock
readings, both runs in the same minute bucket) leaves the day-log exactly as
after the first run: the second run's day-log append is a no-op, whatever
the environment, transcript and starting state (the snapshot overwrite may
repeat). -/
theorem C4_daylog_dedup (env : WEnv) (agentId : Str) (session : Option (Str × List JLine))
    (dateStr timeStr : Str) (st : FState) :
    (checkpointAgent env agentId session dateStr timeStr
        (checkpointAgent env agentId session dateStr timeStr st).1).1.daily
      = (checkpointAgent env agentId session dateStr timeStr st).1.daily := by
  cases session with
  | none => rfl
  | some s =>
    obtain ⟨sessionPath, rawLines⟩ := s
    by_cases hm : (extractMessages (readLastLines rawLines 60)).length < 3
    · simp [checkpointAgent, hm]
    · by_cases hk : env.mkdirFails = true
      · simp [checkpointAgent, hm, hk]
      · simp [checkpointAgent, hm, hk, activeStep_daily, dailyFileStep_idem]

theorem runBatch_spec (items : List BatchItem) (n : Nat) :
    runBatch items n
      = (items.map itemFinalState, n + items.countP (fun it => itemSuccess it)) := by
  induction items generalizing n with
  | nil => simp [runBatch]
  | cons it rest ih =>
    simp only [runBatch]
    cases h : checkpointAgentRun it with
    | error e =>
      simp [ih, itemFinalState, itemSuccess, h, List.countP_cons]
    | ok r =>
      obtain ⟨st2, b⟩ := r
      simp only [ih, itemFinalState, itemSuccess, h, List.countP_cons, List.map_cons]
      cases b
      · simp
      · simp
        omega

/-- C9 (amended): in a checkpoint batch, each agent's final file state and
success flag depend only on that agent's own work item — a failure local to
one agent never aborts or alters the processing of the others — and the tally
counts exactly the items whose `checkpointAgent` run returned success. An
agent whose run throws (e.g. a transcript read failure) is excluded from the
tally and its files are untouched; an agent whose snapshot and day-log writes
fail after a successful extraction is nevertheless counted as a success. -/
theorem C9_batch_isolation :
    (∀ (items : List BatchItem) (n : Nat),
        runBatch items n
          = (items.map itemFinalState, n + items.countP (fun it => itemSuccess it)))
    ∧ itemWriteFail.env.writeActiveFails = true
    ∧ itemWriteFail.env.dailyIOFails = true
    ∧ itemSuccess itemWriteFail = true
    ∧ itemFinalState itemWriteFail = itemWriteFail.st
    ∧ itemSuccess itemThrow = false
    ∧ itemFinalState itemThrow = itemThrow.st :=
  ⟨fun items n => runBatch_spec items n,
   by decide, by decide, by decide, by decide, by decide, by decide⟩

/-- C9: the claim as stated is false on the code: an agent whose snapshot
write and day-log write both fail (nothing is persisted — the final state
still has no snapshot and no day-log) is still counted in the final success
tally, because `checkpointAgent` catches both write errors and returns true. -/
theorem C9_counterexample :
    runBatch [itemWriteFail] 0 = ([⟨none, none⟩], 1)
    ∧ itemWriteFail.env.writeActiveFails = true
    ∧ itemWriteFail.env.dailyIOFails = true :=
  ⟨by decide, by decide, by decide⟩

theorem totalMemoryBytes_nil : totalMemoryBytes ⟨[]⟩ = 0 :=
  rfl

theorem totalMemoryBytes_cons_skip (nm c : Str) (rest : List (Str × Str))
    (h : (".md".data.isSuffixOf nm && nm != "INDEX.md".data) = false) :
    totalMemoryBytes ⟨(nm, c) :: rest⟩ = totalMemoryBytes ⟨rest⟩ := by
  unfold totalMemoryBytes
  simp [List.filter_cons, h]

theorem totalMemoryBytes_cons_keep (nm c : Str) (rest : List (Str × Str))
    (h : (".md".data.isSuffixOf nm && nm != "INDEX.md".data) = true) :
    totalMemoryBytes ⟨(nm, c) :: rest⟩ = c.length + totalMemoryBytes ⟨rest⟩ := by
  unfold totalMemoryBytes
  simp [List.filter_cons, h]

theorem totalMemoryBytes_dirAtThreshold :
    totalMemoryBytes dirAtThreshold = MEMORY_THRESHOLD_BYTES := by
  unfold dirAtThreshold
  rw [totalMemoryBytes_cons_skip _ _ _ (by decide),
    totalMemoryBytes_cons_keep _ _ _ (by decide), totalMemoryBytes_nil,
    List.length_replicate]
  decide

theorem totalMemoryBytes_dirEmptySnapshot :
    totalMemoryBytes dirEmptySnapshot = MEMORY_THRESHOLD_BYTES := by
  unfold dirEmptySnapshot
  rw [totalMemoryBytes_cons_skip _ _ _ (by decide),
    totalMemoryBytes_cons_keep _ _ _ (by decide),
    totalMemoryBytes_cons_keep _ _ _ (by decide), totalMemoryBytes_nil,
    List.length_replicate]
  decide

theorem totalMemoryBytes_dirWithSnapshot :
    totalMemoryBytes dirWithSnapshot = MEMORY_THRESHOLD_BYTES + 25 := by
  unfold dirWithSnapshot
  rw [totalMemoryBytes_cons_skip _ _ _ (by decide),
    totalMemoryBytes_cons_keep _ _ _ (by decide),
    totalMemoryBytes_cons_keep _ _ _ (by decide), totalMemoryBytes_nil,
    List.length_replicate]
  decide

/-- C5: a memory corpus whose aggregate size (all `.md` documents excluding
the index artifact itself) equals the threshold exactly, with the index
artifact present, has the index injected: the boundary is treated as at or
above, because the hook skips only sizes strictly below the threshold. -/
theorem C5_threshold_boundary (d : MemoryDir) (sink : List BootstrapFile) (idx : Str)
    (h1 : findFile d "INDEX.md".data = some idx)
    (h2 : totalMemoryBytes d = MEMORY_THRESHOLD_BYTES) :
    ∃ restBlocks, (memoryIndexInject d sink).2
      = sink ++ ⟨"MEMORY_INDEX.md",
          disclosureInstruction (totalMemoryBytes d) ++ "\n---\n\n".data ++ idx⟩
        :: restBlocks := by
  have hnl : ¬ (totalMemoryBytes d < MEMORY_THRESHOLD_BYTES) := by omega
  simp only [memoryIndexInject, h1]
  rw [if_neg hnl]
  cases hA : findFile d "ACTIVE_CONTEXT.md".data with
  | none => exact ⟨[], by simp⟩
  | some a =>
    by_cases he : a.isEmpty
    · exact ⟨[], by simp [he]⟩
    · exact ⟨[⟨"ACTIVE_CONTEXT.md", a⟩], by simp [he]⟩

/-- C5 witness: a corpus of exactly 51200 bytes beside an INDEX.md gets the
index block injected. -/
theorem C5_threshold_boundary_witness :
    findFile dirAtThreshold "INDEX.md".data = some "# Memory Index".data
    ∧ totalMemoryBytes dirAtThreshold = MEMORY_THRESHOLD_BYTES
    ∧ ∃ restBlocks, (memoryIndexInject dirAtThreshold []).2
        = [] ++ ⟨"MEMORY_INDEX.md",
            disclosureInstruction (totalMemoryBytes dirAtThreshold) ++ "\n---\n\n".data
              ++ "# Memory Index".data⟩
          :: restBlocks :=
  ⟨rfl, totalMemoryBytes_dirAtThreshold,
   C5_threshold_boundary dirAtThreshold [] _ rfl totalMemoryBytes_dirAtThreshold⟩

/-- C6: the claim as stated is false on the code: with the corpus at or above
the threshold and the index present, a Current-State Snapshot file that
exists but is empty is NOT injected (the hook tests the read content's JS
truthiness, and the empty string is falsy), so only one block is appended
although the snapshot file exists. -/
theorem C6_counterexample :
    (findFile dirEmptySnapshot "ACTIVE_CONTEXT.md".data).isSome = true
    ∧ MEMORY_THRESHOLD_BYTES ≤ totalMemoryBytes dirEmptySnapshot
    ∧ (memoryIndexInject dirEmptySnapshot []).2.map (fun b => b.name)
        = ["MEMORY_INDEX.md"] := by
  refine ⟨by decide, le_of_eq totalMemoryBytes_dirEmptySnapshot.symm, ?_⟩
  have h1 : findFile dirEmptySnapshot "INDEX.md".data = some "# Memory Index".data := by
    decide
  have hA : findFile dirEmptySnapshot "ACTIVE_CONTEXT.md".data = some ([] : Str) := by
    decide
  have hnl : ¬ (totalMemoryBytes dirEmptySnapshot < MEMORY_THRESHOLD_BYTES) := by
    rw [totalMemoryBytes_dirEmptySnapshot]
    omega
  simp only [memoryIndexInject, h1]
  rw [if_neg hnl]
  simp [hA]

/-- C6 (amended): whenever the aggregate memory size is at or above the
threshold and the index artifact exists, the hook reads only (it never
modifies the memory directory) and appends to the injection sink, in order:
one block holding the usage instruction followed by the index content, then —
if and only if the snapshot file exists with non-empty content — the snapshot
content as a second block; and nothing else. -/
theorem C6_injection (d : MemoryDir) (sink : List BootstrapFile) (idx : Str)
    (h1 : findFile d "INDEX.md".data = some idx)
    (h2 : MEMORY_THRESHOLD_BYTES ≤ totalMemoryBytes d) :
    (memoryIndexInject d sink).1 = d
    ∧ (memoryIndexInject d sink).2
        = sink ++ ⟨"MEMORY_INDEX.md",
            disclosureInstruction (totalMemoryBytes d) ++ "\n---\n\n".data ++ idx⟩
          :: (match findFile d "ACTIVE_CONTEXT.md".data with
              | some a => if a.isEmpty then [] else [⟨"ACTIVE_CONTEXT.md", a⟩]
              | none => []) := by
  have hnl : ¬ (totalMemoryBytes d < MEMORY_THRESHOLD_BYTES) := by omega
  simp only [memoryIndexInject, h1]
  rw [if_neg hnl]
  cases hA : findFile d "ACTIVE_CONTEXT.md".data with
  | none => simp
  | some a =>
    by_cases he : a.isEmpty
    · simp [he]
    · simp [he]

/-- C6 witness: a 51225-byte corpus with INDEX.md and a non-empty snapshot
receives exactly the two blocks, in order. -/
theorem C6_injection_witness :
    findFile dirWithSnapshot "INDEX.md".data = some "# Memory Index".data
    ∧ MEMORY_THRESHOLD_BYTES ≤ totalMemoryBytes dirWithSnapshot
    ∧ ((memoryIndexInject dirWithSnapshot []).1 = dirWithSnapshot
       ∧ (memoryIndexInject dirWithSnapshot []).2
          = [] ++ ⟨"MEMORY_INDEX.md",
              disclosureInstruction (totalMemoryBytes dirWithSnapshot)
                ++ "\n---\n\n".data ++ "# Memory Index".data⟩
            :: (match findFile dirWithSnapshot "ACTIVE_CONTEXT.md".data with
                | some a => if a.isEmpty then [] else [⟨"ACTIVE_CONTEXT.md", a⟩]
                | none => [])) :=
  ⟨rfl, by rw [totalMemoryBytes_dirWithSnapshot]; omega,
   C6_injection dirWithSnapshot [] _ rfl
     (by rw [totalMemoryBytes_dirWithSnapshot]; omega)⟩

/-- C10: the claim as stated is false on the code: `resolveAgentWorkspaceDir`
first trims and lowercases the identifier, so for the identifier "MAIN"
(which is not "main" and has no per-agent workspace entry) it consults the
configured default workspace and returns it instead of the fixed
`<home>/clawd-MAIN` path. -/
theorem C10_counterexample :
    resolveAgentWorkspaceDir "/h".data cfgDefaultOnly "MAIN".data = "/ws".data
    ∧ ("MAIN".data : Str) ≠ "main".data
    ∧ resolveAgentWorkspaceDir "/h".data cfgDefaultOnly "MAIN".data
        ≠ pathJoin "/h".data ("clawd-".data ++ "MAIN".data) := by
  refine ⟨by decide, by decide, by decide⟩

/-- C10 (amended): `resolveWorkspace` (checkpoint script) behaves as claimed
on the raw identifier: for an identifier other than "main" with no truthy
per-agent workspace entry it ignores the configured default and returns
`<home>/clawd-<agentId>`. `resolveAgentWorkspaceDir` (bootstrap hook) behaves
this way on the trimmed, lowercased identifier: the default is consulted only
when the normalized identifier is "main", and otherwise, absent a per-agent
workspace entry for the normalized identifier, it returns
`<home>/clawd-<normalized id>`. -/
theorem C10_workspace_resolution (home : Str) (cfg : AgentsConfig) (agentId : Str) :
    (agentId ≠ "main".data → hasWorkspaceEntry cfg agentId = false →
        resolveWorkspace home cfg agentId = pathJoin home ("clawd-".data ++ agentId))
    ∧ (normalizeAgentId agentId ≠ "main".data
        → hasWorkspaceEntry cfg (normalizeAgentId agentId) = false
        → resolveAgentWorkspaceDir home cfg agentId
            = pathJoin home ("clawd-".data ++ normalizeAgentId agentId)) := by
  constructor
  · intro hne hws
    unfold hasWorkspaceEntry at hws
    cases h : jsTruthy ((findAgentEntry cfg.list agentId).bind fun a => a.workspace) with
    | some w => rw [h] at hws; simp at hws
    | none => simp [resolveWorkspace, h, hne]
  · intro hne hws
    unfold hasWorkspaceEntry at hws
    cases h : jsTruthy ((findAgentEntry cfg.list (normalizeAgentId agentId)).bind
        fun a => a.workspace) with
    | some w => rw [h] at hws; simp at hws
    | none => simp [resolveAgentWorkspaceDir, h, hne]

/-- C10 witness: with a configured default workspace present, the raw
identifier "beta" and the identifier "Beta " (normalizing to "beta") both
resolve to the fixed `<home>/clawd-beta` path, ignoring the default. -/
theorem C10_workspace_resolution_witness :
    (("beta".data : Str) ≠ "main".data
      ∧ hasWorkspaceEntry cfgDefaultOnly "beta".data = false
      ∧ resolveWorkspace "/h".data cfgDefaultOnly "beta".data
          = pathJoin "/h".data ("clawd-".data ++ "beta".data))
    ∧ (normalizeAgentId "Beta ".data ≠ "main".data
      ∧ hasWorkspaceEntry cfgDefaultOnly (normalizeAgentId "Beta ".data) = false
      ∧ resolveAgentWorkspaceDir "/h".data cfgDefaultOnly "Beta ".data
          = pathJoin "/h".data ("clawd-".data ++ normalizeAgentId "Beta ".data)) :=
  ⟨⟨by decide, by decide,
    (C10_workspace_resolution "/h".data cfgDefaultOnly "beta".data).1
      (by decide) (by decide)⟩,
   ⟨by decide, by decide,
    (C10_workspace_resolution "/h".data cfgDefaultOnly "Beta ".data).2
      (by decide) (by decide)⟩⟩

theorem totals_foldl (t : IndexTotals) (docs : List MemDoc) :
    docs.foldl addDocTotals t
      = ⟨t.size + (docs.map docSize).sum,
         t.files + docs.length,
         t.decisions + (docs.map (countMarker "[DECISION]".data)).sum,
         t.gotchas + (docs.map (countMarker "[GOTCHA]".data)).sum,
         t.solutions + (docs.map (countMarker "[SOLUTION]".data)).sum,
         t.patterns + (docs.map (countMarker "[PATTERN]".data)).sum,
         t.todos + (docs.map (countMarker "[TODO]".data)).sum⟩ := by
  induction docs generalizing t with
  | nil =>
    obtain ⟨s, f, de, g, so, p, td⟩ := t
    simp
  | cons d rest ih =>
    rw [List.foldl_cons, ih]
    simp only [addDocTotals, List.map_cons, List.sum_cons, List.length_cons,
      IndexTotals.mk.injEq]
    omega

/-- C7 (amended): for every memory corpus, the five corpus-wide marker totals
the index builder accumulates and renders in the INDEX.md header — decision,
gotcha, solution, pattern, todo — each equal the sum over all scanned
documents (every file except the index itself) of that document's per-marker
line count, as do the file count and total size; the builder keeps no
corpus-wide totals for tradeoff, fact or preference markers. -/
theorem C7_marker_totals (files : List MemDoc) :
    (buildTotals files).files = (scanned files).length
    ∧ (buildTotals files).size = ((scanned files).map docSize).sum
    ∧ (buildTotals files).decisions
        = ((scanned files).map (countMarker "[DECISION]".data)).sum
    ∧ (buildTotals files).gotchas
        = ((scanned files).map (countMarker "[GOTCHA]".data)).sum
    ∧ (buildTotals files).solutions
        = ((scanned files).map (countMarker "[SOLUTION]".data)).sum
    ∧ (buildTotals files).patterns
        = ((scanned files).map (countMarker "[PATTERN]".data)).sum
    ∧ (buildTotals files).todos
        = ((scanned files).map (countMarker "[TODO]".data)).sum := by
  unfold buildTotals
  rw [totals_foldl]
  simp

set_option maxRecDepth 8000 in
/-- C7: the claim as stated is false on the code: the rendered index's
corpus-wide totals do not cover every marker type of the closed set — two
one-document corpora whose `[FACT]` sums differ (1 vs 0) render identical
INDEX.md header totals, so no corpus-wide fact total equal to the per-document
sums exists in the rendered index (the script accumulates and renders totals
only for decision, gotcha, solution, pattern and todo). -/
theorem C7_counterexample :
    indexHeader "2026-02-03 10:00 PST".data (buildTotals [docWithFact])
      = indexHeader "2026-02-03 10:00 PST".data (buildTotals [docNoFact])
    ∧ countMarker "[FACT]".data docWithFact ≠ countMarker "[FACT]".data docNoFact :=
  ⟨by decide, by decide⟩

/-- C8: at the failing input, the category section rows are NOT ordered by
last-modified date most-recent-first: `sort -t'|' -k6 -r` keys on field 6,
which is the Observations cell (the row's leading `|` makes field 1 empty),
so the row with the brown-circle marker and the OLDER date (2026-01-01)
sorts before the row with the red-circle marker and the NEWER date
(2026-02-02). -/
theorem C8_sort_not_by_date :
    sortRows (categoryRows [docBrownOld, docRedNew] .sessions)
      = [rowLine docBrownOld, rowLine docRedNew]
    ∧ rowLine docBrownOld ≠ rowLine docRedNew
    ∧ docBrownOld.modified = "2026-01-01".data
    ∧ docRedNew.modified = "2026-02-02".data :=
  ⟨by decide, by decide, by decide, by decide⟩
